import Mathlib

/-!
Shallow embedding of the `prp` result-normalization layer (resfinder, shigapass and
quast/QC adapters) together with proofs about its behaviour.

Python dictionaries are embedded as association lists in insertion order, Python
strings as `String`, numeric tool output as `Rat`/`Int`, and fallible code paths
(`KeyError`, `IndexError`, `ValueError`) as `Except PyErr`.  Functions keep the
names of the source functions where Lean allows it.
-/

namespace Prp

/-- Python runtime errors that the embedded code can raise. -/
inductive PyErr where
  | keyError : String → PyErr
  | indexError : PyErr
  | valueError : String → PyErr
deriving DecidableEq

/-- Decidable equality for embedded fallible results. -/
instance {ε α : Type} [DecidableEq ε] [DecidableEq α] : DecidableEq (Except ε α) := fun a b =>
  match a, b with
  | .ok x, .ok y =>
    if h : x = y then .isTrue (by rw [h]) else .isFalse (by intro hc; cases hc; exact h rfl)
  | .error x, .error y =>
    if h : x = y then .isTrue (by rw [h]) else .isFalse (by intro hc; cases hc; exact h rfl)
  | .ok _, .error _ => .isFalse (by intro hc; cases hc)
  | .error _, .ok _ => .isFalse (by intro hc; cases hc)

/-- Modelled from the spec: element types AMR/STRESS of `prp.models.phenotype`
(module not present in the sources). -/
inductive ElementType where
  | AMR
  | STRESS
deriving DecidableEq

/-- Modelled from the spec: stress subtypes (biocide/heat) of `prp.models.phenotype`. -/
inductive ElementStressSubtype where
  | BIOCIDE
  | HEAT
deriving DecidableEq

/-- Modelled from the spec: the AMR element subtype of `prp.models.phenotype`. -/
inductive ElementAmrSubtype where
  | AMR
deriving DecidableEq

/-- Modelled from the spec: variant types (substitution/insertion/deletion) of
`prp.models.phenotype`. -/
inductive VariantType where
  | SUBSTITUTION
  | INSERTION
  | DELETION
deriving DecidableEq

/-- Python `ElementType(value)` enum construction: raises `ValueError` on an
unrecognised value. -/
def ElementType.ofString : String → Except PyErr ElementType
  | "AMR" => .ok ElementType.AMR
  | "STRESS" => .ok ElementType.STRESS
  | s => .error (.valueError s)

/-- Modelled from the spec: `PhenotypeInfo`, a (type, class, name) triple. -/
structure PhenotypeInfo where
  type : ElementType
  res_class : String
  name : String
deriving DecidableEq

/-- The static antibiotic → drug class table of `lookup_antibiotic_class`
(`prp.parse.phenotype.resfinder`), in source order. -/
def lookup_table : List (String × String) :=
  [("unknown aminocyclitol", "aminocyclitol"),
   ("spectinomycin", "aminocyclitol"),
   ("unknown aminoglycoside", "aminoglycoside"),
   ("gentamicin", "aminoglycoside"),
   ("gentamicin c", "aminoglycoside"),
   ("tobramycin", "aminoglycoside"),
   ("streptomycin", "aminoglycoside"),
   ("amikacin", "aminoglycoside"),
   ("kanamycin", "aminoglycoside"),
   ("kanamycin a", "aminoglycoside"),
   ("neomycin", "aminoglycoside"),
   ("paromomycin", "aminoglycoside"),
   ("kasugamycin", "aminoglycoside"),
   ("g418", "aminoglycoside"),
   ("capreomycin", "aminoglycoside"),
   ("isepamicin", "aminoglycoside"),
   ("dibekacin", "aminoglycoside"),
   ("lividomycin", "aminoglycoside"),
   ("ribostamycin", "aminoglycoside"),
   ("butiromycin", "aminoglycoside"),
   ("butirosin", "aminoglycoside"),
   ("hygromycin", "aminoglycoside"),
   ("netilmicin", "aminoglycoside"),
   ("apramycin", "aminoglycoside"),
   ("sisomicin", "aminoglycoside"),
   ("arbekacin", "aminoglycoside"),
   ("astromicin", "aminoglycoside"),
   ("fortimicin", "aminoglycoside"),
   ("unknown analog of d-alanine", "analog of d-alanine"),
   ("d-cycloserine", "analog of d-alanine"),
   ("unknown beta-lactam", "beta-lactam"),
   ("amoxicillin", "beta-lactam"),
   ("amoxicillin+clavulanic acid", "beta-lactam"),
   ("ampicillin", "beta-lactam"),
   ("ampicillin+clavulanic acid", "beta-lactam"),
   ("aztreonam", "beta-lactam"),
   ("cefazolin", "beta-lactam"),
   ("cefepime", "beta-lactam"),
   ("cefixime", "beta-lactam"),
   ("cefotaxime", "beta-lactam"),
   ("cefotaxime+clavulanic acid", "beta-lactam"),
   ("cefoxitin", "beta-lactam"),
   ("ceftaroline", "beta-lactam"),
   ("ceftazidime", "beta-lactam"),
   ("ceftazidime+avibactam", "beta-lactam"),
   ("ceftriaxone", "beta-lactam"),
   ("cefuroxime", "beta-lactam"),
   ("cephalothin", "beta-lactam"),
   ("ertapenem", "beta-lactam"),
   ("imipenem", "beta-lactam"),
   ("meropenem", "beta-lactam"),
   ("penicillin", "beta-lactam"),
   ("piperacillin", "beta-lactam"),
   ("piperacillin+tazobactam", "beta-lactam"),
   ("temocillin", "beta-lactam"),
   ("ticarcillin", "beta-lactam"),
   ("ticarcillin+clavulanic acid", "beta-lactam"),
   ("cephalotin", "beta-lactam"),
   ("piperacillin+clavulanic acid", "beta-lactam"),
   ("unknown diarylquinoline", "diarylquinoline"),
   ("bedaquiline", "diarylquinoline"),
   ("unknown quinolone", "quinolone"),
   ("ciprofloxacin", "quinolone"),
   ("nalidixic acid", "quinolone"),
   ("fluoroquinolone", "quinolone"),
   ("unknown folate pathway antagonist", "folate pathway antagonist"),
   ("sulfamethoxazole", "folate pathway antagonist"),
   ("trimethoprim", "folate pathway antagonist"),
   ("unknown fosfomycin", "fosfomycin"),
   ("fosfomycin", "fosfomycin"),
   ("unknown glycopeptide", "glycopeptide"),
   ("vancomycin", "glycopeptide"),
   ("teicoplanin", "glycopeptide"),
   ("bleomycin", "glycopeptide"),
   ("unknown ionophores", "ionophores"),
   ("narasin", "ionophores"),
   ("salinomycin", "ionophores"),
   ("maduramicin", "ionophores"),
   ("unknown iminophenazine", "iminophenazine"),
   ("clofazimine", "iminophenazine"),
   ("unknown isonicotinic acid hydrazide", "isonicotinic acid hydrazide"),
   ("isoniazid", "isonicotinic acid hydrazide"),
   ("unknown lincosamide", "lincosamide"),
   ("lincomycin", "lincosamide"),
   ("clindamycin", "lincosamide"),
   ("unknown macrolide", "macrolide"),
   ("carbomycin", "macrolide"),
   ("azithromycin", "macrolide"),
   ("oleandomycin", "macrolide"),
   ("spiramycin", "macrolide"),
   ("tylosin", "macrolide"),
   ("telithromycin", "macrolide"),
   ("erythromycin", "macrolide"),
   ("unknown nitroimidazole", "nitroimidazole"),
   ("metronidazole", "nitroimidazole"),
   ("unknown oxazolidinone", "oxazolidinone"),
   ("linezolid", "oxazolidinone"),
   ("unknown amphenicol", "amphenicol"),
   ("chloramphenicol", "amphenicol"),
   ("florfenicol", "amphenicol"),
   ("unknown pleuromutilin", "pleuromutilin"),
   ("tiamulin", "pleuromutilin"),
   ("unknown polymyxin", "polymyxin"),
   ("colistin", "polymyxin"),
   ("unknown pseudomonic acid", "pseudomonic acid"),
   ("mupirocin", "pseudomonic acid"),
   ("unknown rifamycin", "rifamycin"),
   ("rifampicin", "rifamycin"),
   ("unknown salicylic acid - anti-folate", "salicylic acid - anti-folate"),
   ("para-aminosalicyclic acid", "salicylic acid - anti-folate"),
   ("unknown steroid antibacterial", "steroid antibacterial"),
   ("fusidic acid", "steroid antibacterial"),
   ("unknown streptogramin a", "streptogramin a"),
   ("dalfopristin", "streptogramin a"),
   ("pristinamycin iia", "streptogramin a"),
   ("virginiamycin m", "streptogramin a"),
   ("quinupristin+dalfopristin", "streptogramin a"),
   ("unknown streptogramin b", "streptogramin b"),
   ("quinupristin", "streptogramin b"),
   ("pristinamycin ia", "streptogramin b"),
   ("virginiamycin s", "streptogramin b"),
   ("unknown synthetic derivative of nicotinamide", "synthetic derivative of nicotinamide"),
   ("pyrazinamide", "synthetic derivative of nicotinamide"),
   ("unknown tetracycline", "tetracycline"),
   ("tetracycline", "tetracycline"),
   ("doxycycline", "tetracycline"),
   ("minocycline", "tetracycline"),
   ("tigecycline", "tetracycline"),
   ("unknown thioamide", "thioamide"),
   ("ethionamide", "thioamide"),
   ("unknown unspecified", "unspecified"),
   ("ethambutol", "unspecified"),
   ("cephalosporins", "under_development"),
   ("carbapenem", "under_development"),
   ("norfloxacin", "under_development"),
   ("ceftiofur", "under_development")]

/-- `lookup_antibiotic_class` of `prp.parse.phenotype.resfinder`: table lookup with
sentinel default `"unknown"` (`lookup_table.get(antibiotic, "unknown")`). -/
def lookup_antibiotic_class (antibiotic : String) : String :=
  (lookup_table.lookup antibiotic).getD "unknown"

/-- `STRESS_FACTORS` of `prp.parse.phenotype.resfinder`, in source (dict insertion)
order: BIOCIDE first, then HEAT. -/
def STRESS_FACTORS : List (ElementStressSubtype × List String) :=
  [(ElementStressSubtype.BIOCIDE,
    ["formaldehyde", "benzylkonium chloride", "ethidium bromide", "chlorhexidine",
     "cetylpyridinium chloride", "hydrogen peroxide"]),
   (ElementStressSubtype.HEAT, ["temperature"])]

/-- `_assign_res_subtype` of `prp.parse.phenotype.resfinder`.  The `prediction`
dictionary argument is represented by its `"phenotypes"` entry, the only key the
source reads.  For STRESS the loop over `STRESS_FACTORS` overwrites the assignment
whenever the keyword set intersects the predicted phenotypes (no early exit), for
AMR the AMR subtype is returned, otherwise the source only logs a warning and
returns `None`. -/
def _assign_res_subtype (prediction_phenotypes : List String) (element_type : ElementType) :
    Option (ElementStressSubtype ⊕ ElementAmrSubtype) :=
  if element_type = ElementType.STRESS then
    STRESS_FACTORS.foldl
      (fun assigned_subtype sf =>
        if (sf.2.filter (fun p => prediction_phenotypes.contains p)) ≠ [] then
          some (Sum.inl sf.1)
        else assigned_subtype)
      none
  else if element_type = ElementType.AMR then
    some (Sum.inr ElementAmrSubtype.AMR)
  else
    none

/-- `get_nt_change` of `prp.parse.phenotype.resfinder`: walk the zipped codons,
collect mismatching positions into the ref/alt accumulators and upper-case the
result. -/
def get_nt_change (ref_codon : String) (alt_codon : String) : String × String :=
  let folded := (ref_codon.data.zip alt_codon.data).foldl
    (fun (acc : List Char × List Char) (p : Char × Char) =>
      if ¬ p.1 = p.2 then (acc.1 ++ [p.1], acc.2 ++ [p.2]) else acc)
    ([], [])
  (String.mk (folded.1.map Char.toUpper), String.mk (folded.2.map Char.toUpper))

/-- `format_nt_change` of `prp.parse.phenotype.resfinder`.  Each `match` branch of
the source computes a formatted f-string but does not assign it to `fmt_change`,
so the discarded value is bound to `_` here exactly as the source discards it. -/
def format_nt_change (ref : String) (alt : String) (var_type : VariantType)
    (start_pos : Int) (end_pos : Option Int) : String :=
  let fmt_change := ""
  let _ := match var_type with
    | VariantType.SUBSTITUTION => "g." ++ toString start_pos ++ ref ++ ">" ++ alt
    | VariantType.DELETION =>
        "g." ++ toString start_pos ++ "_" ++ toString end_pos ++ "del"
    | VariantType.INSERTION =>
        "g." ++ toString start_pos ++ "_" ++ toString end_pos ++ "ins" ++ alt
  fmt_change

/-- Character class `[0-9\.]` of the percentage regex in
`prp.parse.phenotype.shigapass`. -/
def isPctChar (c : Char) : Bool := c.isDigit || c == '.'

/-- `re.search` for the pattern `([0-9\.]+)%`: scan left to right maintaining the
current run of `[0-9.]` characters; the first `%` preceded by a non-empty run
yields the captured group (the maximal run just before it). -/
def searchPct : List Char → List Char → Option (List Char)
  | _run, [] => none
  | run, c :: rest =>
    if c == '%' && !run.isEmpty then some run.reverse
    else if isPctChar c then searchPct (c :: run) rest
    else searchPct [] rest

/-- Digit run to number (base 10). -/
def digitsToNat (ds : List Char) : Nat :=
  ds.foldl (fun acc c => acc * 10 + (c.toNat - '0'.toNat)) 0

/-- Python `float()` applied to a string drawn from the alphabet `[0-9.]`:
valid iff it has at most one dot and at least one digit, otherwise `ValueError`.
The exact value is represented as a rational. -/
def parseFloatDigits (g : List Char) : Except PyErr Rat :=
  if g.count '.' ≤ 1 ∧ g.any Char.isDigit then
    let intPart := g.takeWhile (fun c => ¬ c = '.')
    let fracPart := (g.dropWhile (fun c => ¬ c = '.')).drop 1
    .ok ((digitsToNat intPart : Rat) + (digitsToNat fracPart : Rat) / ((10 : Rat) ^ fracPart.length))
  else
    .error (.valueError (String.mk g))

/-- `_extract_percentage` of `prp.parse.phenotype.shigapass`: regex search for
`([0-9\.]+)%`; on a match, `float(group(1))` (which can raise `ValueError`),
otherwise the default `0.0`. -/
def _extract_percentage (rfb_hits : String) : Except PyErr Rat :=
  match searchPct [] rfb_hits.data with
  | some g => parseFloatDigits g
  | none => .ok 0

/-- One entry of the resfinder `phenotypes` section (spec section 6); the
`amr_resistant` key may be absent. -/
structure ResPhenotype where
  key : String
  amr_resistant : Option Bool
  amr_resistance : String
  category : String
deriving DecidableEq

/-- One entry of the resfinder `seq_regions` section (spec section 6). -/
structure SeqRegion where
  name : String
  ref_acc : String
  depth : Rat
  identity : Rat
  coverage : Rat
  ref_start_pos : Int
  ref_end_pos : Int
  ref_seq_length : Int
  alignment_length : Int
  phenotypes : List String
  ref_database : List String
  ref_id : String
deriving DecidableEq

/-- One entry of the resfinder `seq_variations` section (spec section 6).  The
`seq_regions` key may be absent (the source tests `"seq_regions" in info`), and
the `depth` key is absent until `_parse_resfinder_amr_variants` writes it. -/
structure SeqVariation where
  substitution : Bool
  insertion : Bool
  deletion : Bool
  ref_codon : String
  var_codon : String
  ref_start_pos : Int
  ref_end_pos : Int
  ref_aa : String
  var_aa : String
  seq_var : String
  phenotypes : List String
  seq_regions : Option (List String)
  ref_database : String
  ref_id : String
  depth : Option Rat
deriving DecidableEq

/-- A resfinder-style result mapping: `phenotypes`, optional `seq_regions` and
`seq_variations` sections, dictionaries as association lists in insertion
order. -/
structure ResfinderResult where
  phenotypes : List (String × ResPhenotype)
  seq_regions : Option (List (String × SeqRegion))
  seq_variations : List (String × SeqVariation)
deriving DecidableEq

/-- Modelled from the spec: `ResistanceGene` of `prp.models.phenotype` (module not
in the sources), with the fields the resfinder adapter fills. -/
structure ResistanceGene where
  gene_symbol : String
  accession : String
  depth : Rat
  identity : Rat
  coverage : Rat
  ref_start_pos : Int
  ref_end_pos : Int
  ref_gene_length : Int
  alignment_length : Int
  phenotypes : List PhenotypeInfo
  ref_database : String
  ref_id : String
  element_type : ElementType
  element_subtype : Option (ElementStressSubtype ⊕ ElementAmrSubtype)
deriving DecidableEq

/-- Modelled from the spec: `ResistanceVariant` of `prp.models.phenotype` (module
not in the sources), with the fields the resfinder adapter fills. -/
structure ResistanceVariant where
  variant_type : VariantType
  gene_symbol : String
  accession : String
  close_seq_name : String
  genes : List String
  phenotypes : List PhenotypeInfo
  position : Int
  ref_nt : String
  alt_nt : String
  ref_aa : String
  alt_aa : String
  nucleotide_change : String
  protein_change : String
  depth : Rat
  ref_database : String
  ref_id : String
deriving DecidableEq

/-- The allow-list filter shared by the resfinder extraction loops: with no limit
every entry passes, otherwise the entry passes iff the intersection of its
phenotypes with the limit list is non-empty. -/
def passesPhenotypeFilter (limit_to_phenotypes : Option (List String))
    (phenotypes : List String) : Bool :=
  match limit_to_phenotypes with
  | none => true
  | some limit => !(phenotypes.filter (fun p => limit.contains p)).isEmpty

/-- The gene-depth lookup of `_parse_resfinder_amr_variants`: if the result has a
`seq_regions` section, `resfinder_result["seq_regions"][info["seq_regions"][0]]["depth"]`
(each access can raise), else `0`. -/
def variantDepth (resfinder_result : ResfinderResult) (info : SeqVariation) :
    Except PyErr Rat :=
  match resfinder_result.seq_regions with
  | some regions =>
    match info.seq_regions with
    | none => .error (.keyError "seq_regions")
    | some [] => .error .indexError
    | some (r0 :: _) =>
      match regions.lookup r0 with
      | none => .error (.keyError r0)
      | some reg => .ok reg.depth
  | none => .ok 0

/-- Python `s.split(";;")`: split at non-overlapping occurrences of `";;"`,
scanning left to right. -/
def splitSSAux : List Char → List Char → List (List Char)
  | acc, [] => [acc.reverse]
  | acc, ';' :: ';' :: rest => acc.reverse :: splitSSAux [] rest
  | acc, c :: rest => splitSSAux (c :: acc) rest

/-- The tuple unpacking `gene_symbol, _, gene_accnr = s.split(";;")`: exactly
three parts or `ValueError`. -/
def splitGeneToken (s : String) : Except PyErr (String × String) :=
  match (splitSSAux [] s.data).map String.mk with
  | [gene_symbol, _, gene_accnr] => .ok (gene_symbol, gene_accnr)
  | _ => .error (.valueError s)

/-- The tail of one `_parse_resfinder_amr_variants` loop iteration, after the
depth write and the variant-type classification: read `info["seq_regions"][0]`
(raises when the key is absent or the list empty), split it into gene symbol and
accession, compute the nucleotide change, classify the phenotypes and build the
`ResistanceVariant` record. -/
def mkResistanceVariant (info : SeqVariation) (var_type : VariantType)
    (igenes : List String) (d : Rat) : Except PyErr ResistanceVariant :=
  match info.seq_regions with
  | none => .error (.keyError "seq_regions")
  | some [] => .error .indexError
  | some (s0 :: _) =>
    match splitGeneToken s0 with
    | .error e => .error e
    | .ok (gene_symbol, gene_accnr) =>
      let nt := get_nt_change info.ref_codon info.var_codon
      let nt_change :=
        format_nt_change nt.1 nt.2 var_type info.ref_start_pos (some info.ref_end_pos)
      .ok { variant_type := var_type
            gene_symbol := gene_symbol
            accession := gene_accnr
            close_seq_name := gene_accnr
            genes := igenes
            phenotypes := info.phenotypes.map (fun phe =>
              { type := ElementType.AMR, res_class := lookup_antibiotic_class phe, name := phe })
            position := info.ref_start_pos
            ref_nt := nt.1
            alt_nt := nt.2
            ref_aa := info.ref_aa
            alt_aa := info.var_aa
            nucleotide_change := nt_change
            protein_change := info.seq_var
            depth := d
            ref_database := info.ref_database
            ref_id := info.ref_id }

/-- The variation-type classification of `_parse_resfinder_amr_variants`:
translate the three mutually-exclusive boolean flags into a `VariantType`,
raising `ValueError("Output has no known mutation type")` when none is set. -/
def variantTypeOf (info : SeqVariation) : Except PyErr VariantType :=
  if info.substitution then .ok VariantType.SUBSTITUTION
  else if info.insertion then .ok VariantType.INSERTION
  else if info.deletion then .ok VariantType.DELETION
  else .error (.valueError "Output has no known mutation type")

/-- The loop of `_parse_resfinder_amr_variants` over `seq_variations.values()`,
threading the `igenes` accumulator and the in-place mutation of the entry
dictionaries: each processed entry gets its `depth` key written before the
variant-type flags are checked; a raise aborts the loop but the mutations made so
far persist.  Returns the updated entries together with the loop's outcome. -/
def variantsGo (resfinder_result : ResfinderResult)
    (limit_to_phenotypes : Option (List String)) :
    List String → List (String × SeqVariation) →
    List (String × SeqVariation) × Except PyErr (List ResistanceVariant)
  | _igenes, [] => ([], .ok [])
  | igenes, (key, info) :: rest =>
    if ¬ passesPhenotypeFilter limit_to_phenotypes info.phenotypes then
      let r := variantsGo resfinder_result limit_to_phenotypes igenes rest
      ((key, info) :: r.1, r.2)
    else
      match variantDepth resfinder_result info with
      | .error e => ((key, info) :: rest, .error e)
      | .ok d =>
        match variantTypeOf { info with depth := some d } with
        | .error e => ((key, { info with depth := some d }) :: rest, .error e)
        | .ok var_type =>
          match mkResistanceVariant { info with depth := some d } var_type
              (if ({ info with depth := some d } : SeqVariation).seq_regions = none then [""]
               else igenes) d with
          | .error e => ((key, { info with depth := some d }) :: rest, .error e)
          | .ok variant =>
            let r := variantsGo resfinder_result limit_to_phenotypes
              (if ({ info with depth := some d } : SeqVariation).seq_regions = none then [""]
               else igenes) rest
            ((key, { info with depth := some d }) :: r.1, r.2.map (fun vs => variant :: vs))

/-- `_parse_resfinder_amr_variants` of `prp.parse.phenotype.resfinder`, as a
state-passing function: the first component is the caller's mapping after the
in-place `depth` writes, the second the raised error or the collected variants. -/
def _parse_resfinder_amr_variants (resfinder_result : ResfinderResult)
    (limit_to_phenotypes : Option (List String)) :
    ResfinderResult × Except PyErr (List ResistanceVariant) :=
  let r := variantsGo resfinder_result limit_to_phenotypes [] resfinder_result.seq_variations
  ({ resfinder_result with seq_variations := r.1 }, r.2)

/-- Modelled from the spec: the genes of `_default_resistance()` from the missing
module `prp.parse.phenotype.utils`; the spec says gene extraction with no
`seq_regions` section "degrades gracefully to an empty/default result", i.e. its
gene list is empty. -/
def _default_resistance_genes : List ResistanceGene := []

/-- The loop of `_parse_resfinder_amr_genes` over `seq_regions.values()`:
skip regions whose first `ref_database` entry does not start with `"Res"`, apply
the allow-list filter, classify the element type from the category of the first
phenotype (raising on an empty phenotype list, a missing phenotype key or an
unknown category), and build the `ResistanceGene` record. -/
def genesGo (resfinder_result : ResfinderResult)
    (limit_to_phenotypes : Option (List String)) :
    List (String × SeqRegion) → Except PyErr (List ResistanceGene)
  | [] => .ok []
  | (_key, info) :: rest =>
    match info.ref_database with
    | [] => .error .indexError
    | db0 :: _ =>
      if ¬ db0.startsWith "Res" then
        genesGo resfinder_result limit_to_phenotypes rest
      else if ¬ passesPhenotypeFilter limit_to_phenotypes info.phenotypes then
        genesGo resfinder_result limit_to_phenotypes rest
      else
        match info.phenotypes with
        | [] => .error .indexError
        | first_pheno :: _ =>
          match resfinder_result.phenotypes.lookup first_pheno with
          | none => .error (.keyError first_pheno)
          | some ph =>
            match ElementType.ofString ph.category.toUpper with
            | .error e => .error e
            | .ok res_category =>
              let gene : ResistanceGene :=
                { gene_symbol := info.name
                  accession := info.ref_acc
                  depth := info.depth
                  identity := info.identity
                  coverage := info.coverage
                  ref_start_pos := info.ref_start_pos
                  ref_end_pos := info.ref_end_pos
                  ref_gene_length := info.ref_seq_length
                  alignment_length := info.alignment_length
                  phenotypes := info.phenotypes.map (fun phe =>
                    { type := res_category
                      res_class := lookup_antibiotic_class phe
                      name := phe })
                  ref_database := db0
                  ref_id := info.ref_id
                  element_type := res_category
                  element_subtype := _assign_res_subtype info.phenotypes res_category }
              match genesGo resfinder_result limit_to_phenotypes rest with
              | .error e => .error e
              | .ok restGenes => .ok (gene :: restGenes)

/-- `_parse_resfinder_amr_genes` of `prp.parse.phenotype.resfinder`: without a
`seq_regions` section return the default (empty) gene list, otherwise run the
extraction loop. -/
def _parse_resfinder_amr_genes (resfinder_result : ResfinderResult)
    (limit_to_phenotypes : Option (List String)) : Except PyErr (List ResistanceGene) :=
  match resfinder_result.seq_regions with
  | none => .ok _default_resistance_genes
  | some regions => genesGo resfinder_result limit_to_phenotypes regions

/-- `TypingSoftware` of `prp.models.typing`. -/
inductive TypingSoftware where
  | CHEWBBACA
  | MLST
  | TBPROFILER
  | MYKROBE
  | VIRULENCEFINDER
  | SEROTYPEFINDER
  | SHIGAPASS
deriving DecidableEq

/-- `TypingMethod` of `prp.models.typing`. -/
inductive TypingMethod where
  | MLST
  | CGMLST
  | LINEAGE
  | STX
  | OTYPE
  | HTYPE
  | SHIGATYPE
deriving DecidableEq

/-- `TypingResultShiga` of `prp.models.typing`: every field optional. -/
structure TypingResultShiga where
  rfb : Option String
  rfb_hits : Option Rat
  mlst : Option String
  flic : Option String
  crispr : Option String
  ipah : Option String
  predicted_serotype : Option String
  predicted_flex_serotype : Option String
  comments : Option String
deriving DecidableEq

/-- Modelled from the spec: the `MethodIndex` envelope of `prp.models.sample`
(module not in the sources) — a (method-type, software, result) triple. -/
structure MethodIndex (τ σ ρ : Type) where
  type : τ
  software : σ
  result : ρ
deriving DecidableEq

/-- A delimited text file: a header row and data rows of string cells. -/
structure CsvFile where
  header : List String
  rows : List (List String)
deriving DecidableEq

/-- The `cols` rename map of `parse_shigapass_pred`. -/
def shigapassCols : List (String × String) :=
  [("Name", "sample_name"),
   ("rfb_hits,(%)", "rfb_hits"),
   ("MLST", "mlst"),
   ("fliC", "flic"),
   ("CRISPR", "crispr"),
   ("ipaH", "ipah"),
   ("Predicted_Serotype", "predicted_serotype"),
   ("Predicted_FlexSerotype", "predicted_flex_serotype"),
   ("Comments", "comments")]

/-- A pandas data frame after reading: column names and rows of nullable cells. -/
structure DataFrame where
  columns : List String
  rows : List (List (Option String))
deriving DecidableEq

/-- The `pd.read_csv(path, delimiter=";", na_values=["ND", "none"])`
`.rename(columns=cols).replace(np.nan, None)` pipeline of `parse_shigapass_pred`:
cells equal to `"ND"` or `"none"` become null, and header names are renamed
through the `cols` map (unmapped names kept). -/
def readCsvShigapass (file : CsvFile) : DataFrame :=
  { columns := file.header.map (fun c => (shigapassCols.lookup c).getD c)
    rows := file.rows.map (fun r => r.map (fun cell =>
      if cell = "ND" ∨ cell = "none" then none else some cell)) }

/-- `df.loc[row, col]`: raises `KeyError` when the column label is absent or the
row index is out of range. -/
def DataFrame.loc (df : DataFrame) (row : Nat) (col : String) :
    Except PyErr (Option String) :=
  match df.columns.indexOf? col with
  | none => .error (.keyError col)
  | some i =>
    match df.rows.get? row with
    | none => .error (.keyError (toString row))
    | some r =>
      match r.get? i with
      | none => .error .indexError
      | some v => .ok v

/-- Python `str()` of a nullable cell: `None` prints as `"None"`. -/
def pyStr : Option String → String
  | none => "None"
  | some s => s

/-- `_parse_shigapass_results` of `prp.parse.phenotype.shigapass`: build the
`TypingResultShiga` record from row `row`, reading the fields in the source's
keyword-argument order (so the `rfb` column is read first). -/
def _parse_shigapass_results (predictions : DataFrame) (row : Nat) :
    Except PyErr TypingResultShiga := do
  let rfb ← predictions.loc row "rfb"
  let rfb_hits_cell ← predictions.loc row "rfb_hits"
  let rfb_hits ← _extract_percentage (pyStr rfb_hits_cell)
  let mlst ← predictions.loc row "mlst"
  let flic ← predictions.loc row "flic"
  let crispr ← predictions.loc row "crispr"
  let ipah ← predictions.loc row "ipah"
  let predicted_serotype ← predictions.loc row "predicted_serotype"
  let predicted_flex_serotype ← predictions.loc row "predicted_flex_serotype"
  let comments ← predictions.loc row "comments"
  .ok { rfb := rfb
        rfb_hits := some rfb_hits
        mlst := mlst
        flic := flic
        crispr := crispr
        ipah := ipah
        predicted_serotype := predicted_serotype
        predicted_flex_serotype := predicted_flex_serotype
        comments := comments }

/-- `parse_shigapass_pred` of `prp.parse.phenotype.shigapass`: read the file,
parse row 0 and wrap the result in a SHIGATYPE/SHIGAPASS `MethodIndex`. -/
def parse_shigapass_pred (file : CsvFile) :
    Except PyErr (MethodIndex TypingMethod TypingSoftware TypingResultShiga) := do
  let hits := readCsvShigapass file
  let shigatype_results ← _parse_shigapass_results hits 0
  .ok { type := TypingMethod.SHIGATYPE
        software := TypingSoftware.SHIGAPASS
        result := shigatype_results }

/-- Python `str.strip()`: drop whitespace from both ends. -/
def pyStrip (cs : List Char) : List Char :=
  ((cs.dropWhile Char.isWhitespace).reverse.dropWhile Char.isWhitespace).reverse

/-- Python `int()` on a string: optional surrounding whitespace, optional sign,
then at least one digit, otherwise `ValueError`. -/
def pyInt (s : String) : Except PyErr Int :=
  let t := pyStrip s.data
  let signDigits : Int × List Char :=
    match t with
    | '-' :: rest => (-1, rest)
    | '+' :: rest => (1, rest)
    | _ => (1, t)
  if signDigits.2 ≠ [] ∧ signDigits.2.all Char.isDigit then
    .ok (signDigits.1 * (digitsToNat signDigits.2 : Int))
  else
    .error (.valueError s)

/-- Python `float()` on a plain decimal string: optional surrounding whitespace,
optional sign, then digits with at most one dot; the value is represented as a
rational. -/
def pyFloat (s : String) : Except PyErr Rat :=
  let t := pyStrip s.data
  let signBody : Rat × List Char :=
    match t with
    | '-' :: rest => (-1, rest)
    | '+' :: rest => (1, rest)
    | _ => (1, t)
  if signBody.2 ≠ [] ∧ signBody.2.all isPctChar then
    match parseFloatDigits signBody.2 with
    | .ok v => .ok (signBody.1 * v)
    | .error e => .error e
  else
    .error (.valueError s)

/-- Modelled from the spec: `QuastQcResult` of `prp.models.qc` (module not in the
sources), the flat assembly-QC record; its numeric fields coerce the numeric
strings of the report row to numbers (pydantic validation). -/
structure QuastQcResult where
  total_length : Int
  reference_length : Int
  largest_contig : Int
  n_contigs : Int
  n50 : Int
  assembly_gc : Rat
  reference_gc : Rat
  duplication_ratio : Rat
deriving DecidableEq

/-- `QcSoftware` members used by `prp.parse.qc` (model module not in the
sources). -/
inductive QcSoftware where
  | QUAST
  | POSTALIGNQC
deriving DecidableEq

/-- Modelled from the spec: `QcMethodIndex` of `prp.models.qc` — a
(software, result) envelope, monomorphised to the Quast payload. -/
structure QcMethodIndex where
  software : QcSoftware
  result : QuastQcResult
deriving DecidableEq

/-- `dict(zip(header, row))` of `parse_quast_results`, as an association list. -/
def rowDict (header : List String) (row : List String) : List (String × String) :=
  header.zip row

/-- Dictionary access `raw[0][key]`: `KeyError` when absent. -/
def getRaw (d : List (String × String)) (k : String) : Except PyErr String :=
  match d.lookup k with
  | some v => .ok v
  | none => .error (.keyError k)

/-- `parse_quast_results` of `prp.parse.qc`: read the tab-delimited report,
zip the header with each data row, take the first row (`IndexError` when there is
none) and build the `QuastQcResult`; the source wraps `Total length` in `int()`
itself and the remaining numeric fields are coerced by the pydantic model. -/
def parse_quast_results (file : CsvFile) : Except PyErr QcMethodIndex := do
  let raw := file.rows.map (fun row => rowDict file.header row)
  match raw with
  | [] => .error .indexError
  | first :: _ => do
    let total_length ← pyInt (← getRaw first "Total length")
    let reference_length ← pyInt (← getRaw first "Reference length")
    let largest_contig ← pyInt (← getRaw first "Largest contig")
    let n_contigs ← pyInt (← getRaw first "# contigs")
    let n50 ← pyInt (← getRaw first "N50")
    let assembly_gc ← pyFloat (← getRaw first "GC (%)")
    let reference_gc ← pyFloat (← getRaw first "Reference GC (%)")
    let duplication_ratio ← pyFloat (← getRaw first "Duplication ratio")
    .ok { software := QcSoftware.QUAST
          result := { total_length := total_length
                      reference_length := reference_length
                      largest_contig := largest_contig
                      n_contigs := n_contigs
                      n50 := n50
                      assembly_gc := assembly_gc
                      reference_gc := reference_gc
                      duplication_ratio := duplication_ratio } }

/-- The per-entry frame relation of the variant loop: the key is unchanged and
the entry is either untouched or differs from the original in its `depth` key
alone. -/
def frameRel (orig upd : String × SeqVariation) : Prop :=
  upd.1 = orig.1 ∧ (upd.2 = orig.2 ∨ ∃ d, upd.2 = { orig.2 with depth := some d })

/-- The per-entry relation of a variant loop that ran to completion: entries
failing the allow-list filter are untouched, and every entry passing it has its
`depth` key set to the value of the gene-depth lookup (which is `0` whenever the
result has no `seq_regions` section). -/
def successRel (resfinder_result : ResfinderResult)
    (limit_to_phenotypes : Option (List String)) (orig upd : String × SeqVariation) : Prop :=
  upd.1 = orig.1 ∧
  (if passesPhenotypeFilter limit_to_phenotypes orig.2.phenotypes then
     ∃ d, variantDepth resfinder_result orig.2 = .ok d ∧
          upd.2 = { orig.2 with depth := some d } ∧
          (resfinder_result.seq_regions = none → d = 0)
   else upd.2 = orig.2)

/-- A seq-variation entry with none of the three variant-type flags set. -/
def c2info : SeqVariation :=
  { substitution := false
    insertion := false
    deletion := false
    ref_codon := "ACT"
    var_codon := "ACT"
    ref_start_pos := 1
    ref_end_pos := 3
    ref_aa := "T"
    var_aa := "T"
    seq_var := "p.T1T"
    phenotypes := ["colistin"]
    seq_regions := some ["mgrB;;1;;NC_000001"]
    ref_database := "ResFinder"
    ref_id := "id1"
    depth := none }

/-- A resfinder result whose single seq-variation entry has no variant-type
flag set. -/
def c2res : ResfinderResult :=
  { phenotypes := [], seq_regions := none, seq_variations := [("var1", c2info)] }

/-- A resfinder result with no `seq_regions` section at all. -/
def c8res : ResfinderResult :=
  { phenotypes := [], seq_regions := none, seq_variations := [] }

/-- A shigapass input file whose header row consists exactly of the fixed
shigapass column names, with one data row. -/
def c3file : CsvFile :=
  { header := ["Name", "rfb_hits,(%)", "MLST", "fliC", "CRISPR", "ipaH",
               "Predicted_Serotype", "Predicted_FlexSerotype", "Comments"]
    rows := [["sample1", "98.2% (123/129)", "ST145", "fliC-2", "A", "ipaH+",
              "SB3", "ND", "none"]] }

/-- A Quast report row with `Total length=5000000` and `# contigs=42`. -/
def c9file : CsvFile :=
  { header := ["Assembly", "Total length", "Reference length", "Largest contig",
               "# contigs", "N50", "GC (%)", "Reference GC (%)", "Duplication ratio"]
    rows := [["sample1", "5000000", "4641652", "250000", "42", "150000",
              "50.5", "50.79", "1.002"]] }

/-- A well-formed substitution entry whose phenotypes do not intersect the
allow-list used in the C10 counterexample. -/
def c10skipInfo : SeqVariation :=
  { substitution := true
    insertion := false
    deletion := false
    ref_codon := "TCG"
    var_codon := "TTG"
    ref_start_pos := 10
    ref_end_pos := 12
    ref_aa := "S"
    var_aa := "L"
    seq_var := "p.S4L"
    phenotypes := ["ciprofloxacin"]
    seq_regions := some ["gyrA;;1;;NC_000002"]
    ref_database := "ResFinder"
    ref_id := "id2"
    depth := none }

/-- A resfinder result with one seq-variation entry, used to refute the claim
that a non-empty `seq_variations` section is always mutated. -/
def c10skipRes : ResfinderResult :=
  { phenotypes := [], seq_regions := none, seq_variations := [("var1", c10skipInfo)] }

/-- A well-formed substitution entry that passes the trivial filter. -/
def c10wInfo : SeqVariation :=
  { substitution := true
    insertion := false
    deletion := false
    ref_codon := "TCG"
    var_codon := "TTG"
    ref_start_pos := 20
    ref_end_pos := 22
    ref_aa := "S"
    var_aa := "L"
    seq_var := "p.S7L"
    phenotypes := ["ampicillin"]
    seq_regions := some ["pbp5;;1;;NC_000003"]
    ref_database := "ResFinder"
    ref_id := "id3"
    depth := none }

/-- A resfinder result with one processable seq-variation entry and no
`seq_regions` section. -/
def c10wRes : ResfinderResult :=
  { phenotypes := [], seq_regions := none, seq_variations := [("var1", c10wInfo)] }

/-- The BIOCIDE keyword list of `STRESS_FACTORS`, named for use in proofs. -/
def biocideList : List String :=
  ["formaldehyde", "benzylkonium chloride", "ethidium bromide", "chlorhexidine",
   "cetylpyridinium chloride", "hydrogen peroxide"]

/-! Theorems. -/

/-- Claim C1: for every reference string, alternate string, variant type, start
position and end position, `format_nt_change` returns the empty string — its
formatting branches compute a formatted string but discard it in every case. -/
theorem c1_format_nt_change_always_empty (ref alt : String) (var_type : VariantType)
    (start_pos : Int) (end_pos : Option Int) :
    format_nt_change ref alt var_type start_pos end_pos = "" := rfl

/-- Claim C3 (code bug): on an input file whose header row consists exactly of
the fixed shigapass column names with one data row, `parse_shigapass_pred` does
not return a typed record — it raises `KeyError("rfb")`, because
`_parse_shigapass_results` reads a column `"rfb"` that the rename map never
produces. -/
theorem c3_shigapass_raises_keyerror_rfb :
    parse_shigapass_pred c3file = .error (PyErr.keyError "rfb") := by rfl

/-- Claim C4, counterexample: percentage extraction is not total — on the input
`".%"` the regex matches with captured group `"."`, and `float(".")` raises
`ValueError`, so the function raises instead of returning a number. -/
theorem c4_counterexample_extract_percentage_raises :
    _extract_percentage ".%" = .error (PyErr.valueError ".") := by rfl

/-- Claim C4 as amended: on `"95.3% (123/129)"` percentage extraction returns
95.3, and on any string in which the percentage pattern does not match it
returns exactly 0.0; totality fails only when a match's captured digits-and-dots
run is not a valid number. -/
theorem c4_extract_percentage_amended :
    _extract_percentage "95.3% (123/129)" = .ok (95.3 : Rat) ∧
    ∀ s : String, searchPct [] s.data = none → _extract_percentage s = .ok 0 := by
  constructor
  · have h : _extract_percentage "95.3% (123/129)" = parseFloatDigits ['9', '5', '.', '3'] := rfl
    have h2 : parseFloatDigits ['9', '5', '.', '3'] =
        .ok (((95 : Nat) : Rat) + ((3 : Nat) : Rat) / ((10 : Rat) ^ (1 : Nat))) := by
      unfold parseFloatDigits
      rw [if_pos (by decide)]
      rfl
    rw [h, h2]
    norm_num
  · intro s h
    unfold _extract_percentage
    rw [h]

/-- Claim C4 witness: a concrete no-match input. -/
theorem c4_witness : _extract_percentage "no percentage here" = .ok 0 :=
  c4_extract_percentage_amended.2 "no percentage here" (by decide)

/-- The accumulator form of the `get_nt_change` loop: folding over the zipped
codons appends exactly the mismatching positions. -/
theorem ntFoldAux (L : List (Char × Char)) (a b : List Char) :
    L.foldl (fun (acc : List Char × List Char) (p : Char × Char) =>
      if ¬ p.1 = p.2 then (acc.1 ++ [p.1], acc.2 ++ [p.2]) else acc) (a, b) =
    (a ++ ((L.filter (fun p => !(p.1 == p.2))).map Prod.fst),
     b ++ ((L.filter (fun p => !(p.1 == p.2))).map Prod.snd)) := by
  induction L generalizing a b with
  | nil => simp
  | cons hd tl ih =>
    rw [List.foldl_cons]
    by_cases h : hd.1 = hd.2
    · rw [if_neg (not_not_intro h), ih]
      simp [List.filter_cons, h]
    · rw [if_pos h, ih]
      simp [List.filter_cons, h, List.append_assoc]

/-- Claim C5: nucleotide-change extraction compares the codons position by
position and retains exactly the mismatching positions (upper-cased); in
particular `get_nt_change "TCG" "TTG" = ("C", "T")` and
`get_nt_change "AAA" "AAA" = ("", "")`. -/
theorem c5_get_nt_change_mismatches :
    (get_nt_change "TCG" "TTG" = ("C", "T") ∧ get_nt_change "AAA" "AAA" = ("", "")) ∧
    ∀ ref_codon alt_codon : String,
      get_nt_change ref_codon alt_codon =
        (String.mk ((((ref_codon.data.zip alt_codon.data).filter
            (fun p => !(p.1 == p.2))).map Prod.fst).map Char.toUpper),
         String.mk ((((ref_codon.data.zip alt_codon.data).filter
            (fun p => !(p.1 == p.2))).map Prod.snd).map Char.toUpper)) := by
  refine ⟨⟨by decide, by decide⟩, ?_⟩
  intro ref_codon alt_codon
  unfold get_nt_change
  rw [ntFoldAux]
  simp

set_option maxRecDepth 40000 in
/-- The key column of the static antibiotic table has no duplicates, so
association-list lookup agrees with the Python dict built from the literal. -/
theorem lookup_table_keys_nodup : (lookup_table.map Prod.fst).Nodup := by decide

/-- Lookup in an association list with duplicate-free keys finds any member. -/
theorem lookup_eq_some_of_mem :
    ∀ {l : List (String × String)} {a c : String},
      (l.map Prod.fst).Nodup → (a, c) ∈ l → l.lookup a = some c := by
  intro l
  induction l with
  | nil => intro a c _ h; cases h
  | cons hd tl ih =>
    intro a c hnd hmem
    simp only [List.map_cons, List.nodup_cons] at hnd
    rcases List.mem_cons.mp hmem with h | h
    · cases h
      simp [List.lookup]
    · have hne : a ≠ hd.1 := by
        intro he
        exact hnd.1 (he ▸ List.mem_map_of_mem Prod.fst h)
      simp only [List.lookup, beq_eq_false_iff_ne.mpr hne]
      exact ih hnd.2 h

/-- Claim C6: the antibiotic-class lookup is pure and total — every name present
in the static table maps to its recorded canonical class, and every absent name
maps to exactly `"unknown"`. -/
theorem c6_lookup_antibiotic_class_total :
    (∀ a c : String, (a, c) ∈ lookup_table → lookup_antibiotic_class a = c) ∧
    (∀ a : String, lookup_table.lookup a = none → lookup_antibiotic_class a = "unknown") := by
  constructor
  · intro a c hmem
    unfold lookup_antibiotic_class
    rw [lookup_eq_some_of_mem lookup_table_keys_nodup hmem]
    rfl
  · intro a h
    unfold lookup_antibiotic_class
    rw [h]
    rfl

/-- Claim C6 witness: a present name and an absent name. -/
theorem c6_witness :
    lookup_antibiotic_class "gentamicin" = "aminoglycoside" ∧
    lookup_antibiotic_class "voodoo" = "unknown" :=
  ⟨c6_lookup_antibiotic_class_total.1 "gentamicin" "aminoglycoside" (by decide),
   c6_lookup_antibiotic_class_total.2 "voodoo" (by decide)⟩

/-- Claim C7: for a STRESS prediction, phenotypes containing `"temperature"`
yield the HEAT subtype; phenotypes containing `"chlorhexidine"` but no HEAT
keyword yield BIOCIDE; phenotypes disjoint from both keyword lists yield no
assignment, and no assignment arises only through that fallback. -/
theorem c7_assign_res_subtype_stress (phenos : List String) :
    ("temperature" ∈ phenos →
      _assign_res_subtype phenos ElementType.STRESS = some (Sum.inl ElementStressSubtype.HEAT)) ∧
    ("chlorhexidine" ∈ phenos → "temperature" ∉ phenos →
      _assign_res_subtype phenos ElementType.STRESS = some (Sum.inl ElementStressSubtype.BIOCIDE)) ∧
    ((∀ sf ∈ STRESS_FACTORS, ∀ p ∈ sf.2, p ∉ phenos) →
      _assign_res_subtype phenos ElementType.STRESS = none) ∧
    (_assign_res_subtype phenos ElementType.STRESS = none →
      ∀ sf ∈ STRESS_FACTORS, ∀ p ∈ sf.2, p ∉ phenos) := by
  have hform : _assign_res_subtype phenos ElementType.STRESS =
      (if (["temperature"].filter (fun p => phenos.contains p)) ≠ [] then
        some (Sum.inl ElementStressSubtype.HEAT)
       else if (biocideList.filter (fun p => phenos.contains p)) ≠ [] then
        some (Sum.inl ElementStressSubtype.BIOCIDE)
       else none) := by
    unfold _assign_res_subtype
    rw [if_pos rfl]
    simp only [STRESS_FACTORS, List.foldl_cons, List.foldl_nil, biocideList]
  rw [hform]
  refine ⟨?_, ?_, ?_, ?_⟩
  · intro ht
    rw [if_pos (by simp [List.filter_cons, ht])]
  · intro hc ht
    rw [if_neg (by simp [List.filter_cons, ht])]
    rw [if_pos ?hbne]
    case hbne =>
      intro heq
      have h2 := List.filter_eq_nil_iff.mp heq "chlorhexidine" (by decide)
      simp [hc] at h2
  · intro hdis
    have hT : "temperature" ∉ phenos :=
      hdis (ElementStressSubtype.HEAT, ["temperature"]) (by simp [STRESS_FACTORS])
        "temperature" (by decide)
    have hB : ∀ p ∈ biocideList, p ∉ phenos := fun p hp =>
      hdis (ElementStressSubtype.BIOCIDE, biocideList)
        (by simp [STRESS_FACTORS, biocideList]) p hp
    rw [if_neg (by simp [List.filter_cons, hT])]
    rw [if_neg (by
      simp only [ne_eq, not_not]
      exact List.filter_eq_nil_iff.mpr (fun p hp => by simp [hB p hp]))]
  · intro hres sf hsf p hp hmem
    by_cases hheat : (["temperature"].filter (fun p => phenos.contains p)) ≠ []
    · rw [if_pos hheat] at hres; cases hres
    · rw [if_neg hheat] at hres
      by_cases hbio : (biocideList.filter (fun p => phenos.contains p)) ≠ []
      · rw [if_pos hbio] at hres; cases hres
      · simp only [STRESS_FACTORS] at hsf
        rcases List.mem_cons.mp hsf with h | h
        · subst h
          simp only [not_not] at hbio
          have := List.filter_eq_nil_iff.mp hbio p (by simpa [biocideList] using hp)
          simp [hmem] at this
        · rcases List.mem_cons.mp h with h2 | h2
          · subst h2
            simp only [not_not] at hheat
            have := List.filter_eq_nil_iff.mp hheat p (by simpa using hp)
            simp [hmem] at this
          · cases h2

/-- Claim C7 witness: concrete phenotype lists for the HEAT, BIOCIDE and
no-assignment cases. -/
theorem c7_witness :
    _assign_res_subtype ["temperature"] ElementType.STRESS =
        some (Sum.inl ElementStressSubtype.HEAT) ∧
    _assign_res_subtype ["chlorhexidine"] ElementType.STRESS =
        some (Sum.inl ElementStressSubtype.BIOCIDE) ∧
    _assign_res_subtype ["ampicillin"] ElementType.STRESS = none :=
  ⟨(c7_assign_res_subtype_stress ["temperature"]).1 (by decide),
   (c7_assign_res_subtype_stress ["chlorhexidine"]).2.1 (by decide) (by decide),
   (c7_assign_res_subtype_stress ["ampicillin"]).2.2.1 (by decide)⟩

/-- Claim C8: gene extraction on a resfinder result whose `seq_regions` section
is absent or empty returns the empty gene list and raises no error. -/
theorem c8_genes_empty_regions (resfinder_result : ResfinderResult)
    (limit_to_phenotypes : Option (List String))
    (h : resfinder_result.seq_regions = none ∨ resfinder_result.seq_regions = some []) :
    _parse_resfinder_amr_genes resfinder_result limit_to_phenotypes = .ok [] := by
  unfold _parse_resfinder_amr_genes
  rcases h with h | h <;> rw [h] <;> rfl

/-- Claim C8 witness: a concrete result with no `seq_regions` section. -/
theorem c8_witness : _parse_resfinder_amr_genes c8res none = .ok [] :=
  c8_genes_empty_regions c8res none (Or.inl rfl)

/-- Claim C9: parsing a Quast report row with `Total length=5000000` and
`# contigs=42` succeeds and yields a record with `total_length = 5000000` and
`n_contigs = 42`, wrapped in a QUAST-tagged envelope, with no loss of precision
for the integer fields. -/
theorem c9_quast_roundtrip :
    (parse_quast_results c9file).map
        (fun q => (q.result.total_length, q.result.n_contigs, q.software)) =
      .ok (5000000, 42, QcSoftware.QUAST) := by rfl

/-- Step equation: an entry failing the allow-list filter is skipped unchanged. -/
theorem variantsGo_skip (res : ResfinderResult) (limit : Option (List String))
    (igenes : List String) (k : String) (v : SeqVariation) (tl : List (String × SeqVariation))
    (hf : passesPhenotypeFilter limit v.phenotypes = false) :
    variantsGo res limit igenes ((k, v) :: tl) =
      ((k, v) :: (variantsGo res limit igenes tl).1, (variantsGo res limit igenes tl).2) := by
  simp only [variantsGo]
  rw [if_pos (by simp [hf])]

/-- Step equation: the gene-depth lookup raises before the entry is mutated. -/
theorem variantsGo_depth_error (res : ResfinderResult) (limit : Option (List String))
    (igenes : List String) (k : String) (v : SeqVariation) (tl : List (String × SeqVariation))
    (e : PyErr) (hf : passesPhenotypeFilter limit v.phenotypes = true)
    (hdep : variantDepth res v = .error e) :
    variantsGo res limit igenes ((k, v) :: tl) = ((k, v) :: tl, .error e) := by
  simp only [variantsGo]
  rw [if_neg (by simp [hf])]
  simp only [hdep]

/-- Step equation: the variant-type classification raises after the depth write. -/
theorem variantsGo_vt_error (res : ResfinderResult) (limit : Option (List String))
    (igenes : List String) (k : String) (v : SeqVariation) (tl : List (String × SeqVariation))
    (d : Rat) (e : PyErr) (hf : passesPhenotypeFilter limit v.phenotypes = true)
    (hdep : variantDepth res v = .ok d)
    (hvt : variantTypeOf { v with depth := some d } = .error e) :
    variantsGo res limit igenes ((k, v) :: tl) =
      ((k, { v with depth := some d }) :: tl, .error e) := by
  simp only [variantsGo]
  rw [if_neg (by simp [hf])]
  simp only [hdep, hvt]

/-- Step equation: building the variant record raises after the depth write. -/
theorem variantsGo_mk_error (res : ResfinderResult) (limit : Option (List String))
    (igenes : List String) (k : String) (v : SeqVariation) (tl : List (String × SeqVariation))
    (d : Rat) (var_type : VariantType) (e : PyErr)
    (hf : passesPhenotypeFilter limit v.phenotypes = true)
    (hdep : variantDepth res v = .ok d)
    (hvt : variantTypeOf { v with depth := some d } = .ok var_type)
    (hmk : mkResistanceVariant { v with depth := some d } var_type
      (if v.seq_regions = none then [""] else igenes) d = .error e) :
    variantsGo res limit igenes ((k, v) :: tl) =
      ((k, { v with depth := some d }) :: tl, .error e) := by
  simp only [variantsGo]
  rw [if_neg (by simp [hf])]
  simp only [hdep, hvt, hmk]

/-- Step equation: a fully processed entry. -/
theorem variantsGo_process (res : ResfinderResult) (limit : Option (List String))
    (igenes : List String) (k : String) (v : SeqVariation) (tl : List (String × SeqVariation))
    (d : Rat) (var_type : VariantType) (variant : ResistanceVariant)
    (hf : passesPhenotypeFilter limit v.phenotypes = true)
    (hdep : variantDepth res v = .ok d)
    (hvt : variantTypeOf { v with depth := some d } = .ok var_type)
    (hmk : mkResistanceVariant { v with depth := some d } var_type
      (if v.seq_regions = none then [""] else igenes) d = .ok variant) :
    variantsGo res limit igenes ((k, v) :: tl) =
      ((k, { v with depth := some d }) ::
         (variantsGo res limit (if v.seq_regions = none then [""] else igenes) tl).1,
       ((variantsGo res limit (if v.seq_regions = none then [""] else igenes) tl).2).map
         (fun vs => variant :: vs)) := by
  simp only [variantsGo]
  rw [if_neg (by simp [hf])]
  simp only [hdep, hvt, hmk]

/-- If some entry of the list passes the allow-list filter and has no
variant-type flag set, the extraction loop ends in an error. -/
theorem variantsGo_error_of_no_flags
    (res : ResfinderResult) (limit : Option (List String)) (key : String) (info : SeqVariation)
    (hfilter : passesPhenotypeFilter limit info.phenotypes = true)
    (hsub : info.substitution = false) (hins : info.insertion = false)
    (hdel : info.deletion = false) :
    ∀ (igenes : List String) (l : List (String × SeqVariation)),
      (key, info) ∈ l → ∃ e, (variantsGo res limit igenes l).2 = .error e := by
  intro igenes l
  induction l generalizing igenes with
  | nil => intro h; cases h
  | cons hd tl ih =>
    intro hmem
    obtain ⟨k, v⟩ := hd
    by_cases hf : passesPhenotypeFilter limit v.phenotypes = true
    · rcases hdep : variantDepth res v with e | d
      · rw [variantsGo_depth_error res limit igenes k v tl e hf hdep]
        exact ⟨e, rfl⟩
      · rcases hvt : variantTypeOf { v with depth := some d } with e | var_type
        · rw [variantsGo_vt_error res limit igenes k v tl d e hf hdep hvt]
          exact ⟨e, rfl⟩
        · rcases hmk : mkResistanceVariant { v with depth := some d } var_type
              (if v.seq_regions = none then [""] else igenes) d with e | variant
          · rw [variantsGo_mk_error res limit igenes k v tl d var_type e hf hdep hvt hmk]
            exact ⟨e, rfl⟩
          · rw [variantsGo_process res limit igenes k v tl d var_type variant hf hdep hvt hmk]
            rcases List.mem_cons.mp hmem with h | h
            · exfalso
              injection h with h1 h2
              subst h2
              unfold variantTypeOf at hvt
              simp [hsub, hins, hdel] at hvt
            · obtain ⟨e, he⟩ := ih (if v.seq_regions = none then [""] else igenes) h
              exact ⟨e, by simp [he, Except.map]⟩
    · simp only [Bool.not_eq_true] at hf
      rw [variantsGo_skip res limit igenes k v tl hf]
      rcases List.mem_cons.mp hmem with h | h
      · exfalso
        injection h with h1 h2
        subst h2
        rw [hfilter] at hf
        cases hf
      · obtain ⟨e, he⟩ := ih igenes h
        exact ⟨e, by simp [he]⟩

/-- Untouched entry lists satisfy the frame relation. -/
theorem forall₂_frame_refl (l : List (String × SeqVariation)) :
    List.Forall₂ frameRel l l :=
  (List.forall₂_same).mpr (fun _ _ => ⟨rfl, Or.inl rfl⟩)

/-- The extraction loop changes entries only in their `depth` key. -/
theorem variantsGo_frame (res : ResfinderResult) (limit : Option (List String)) :
    ∀ (igenes : List String) (l : List (String × SeqVariation)),
      List.Forall₂ frameRel l (variantsGo res limit igenes l).1 := by
  intro igenes l
  induction l generalizing igenes with
  | nil => exact List.Forall₂.nil
  | cons hd tl ih =>
    obtain ⟨k, v⟩ := hd
    by_cases hf : passesPhenotypeFilter limit v.phenotypes = true
    · rcases hdep : variantDepth res v with e | d
      · rw [variantsGo_depth_error res limit igenes k v tl e hf hdep]
        exact List.Forall₂.cons ⟨rfl, Or.inl rfl⟩ (forall₂_frame_refl tl)
      · rcases hvt : variantTypeOf { v with depth := some d } with e | var_type
        · rw [variantsGo_vt_error res limit igenes k v tl d e hf hdep hvt]
          exact List.Forall₂.cons ⟨rfl, Or.inr ⟨d, rfl⟩⟩ (forall₂_frame_refl tl)
        · rcases hmk : mkResistanceVariant { v with depth := some d } var_type
              (if v.seq_regions = none then [""] else igenes) d with e | variant
          · rw [variantsGo_mk_error res limit igenes k v tl d var_type e hf hdep hvt hmk]
            exact List.Forall₂.cons ⟨rfl, Or.inr ⟨d, rfl⟩⟩ (forall₂_frame_refl tl)
          · rw [variantsGo_process res limit igenes k v tl d var_type variant hf hdep hvt hmk]
            exact List.Forall₂.cons ⟨rfl, Or.inr ⟨d, rfl⟩⟩
              (ih (if v.seq_regions = none then [""] else igenes))
    · simp only [Bool.not_eq_true] at hf
      rw [variantsGo_skip res limit igenes k v tl hf]
      exact List.Forall₂.cons ⟨rfl, Or.inl rfl⟩ (ih igenes)

/-- A completed extraction loop wrote the gene depth into every entry that
passes the allow-list filter and left the others unchanged. -/
theorem variantsGo_success (res : ResfinderResult) (limit : Option (List String)) :
    ∀ (igenes : List String) (l : List (String × SeqVariation)) (out : List ResistanceVariant),
      (variantsGo res limit igenes l).2 = .ok out →
      List.Forall₂ (successRel res limit) l (variantsGo res limit igenes l).1 := by
  intro igenes l
  induction l generalizing igenes with
  | nil => intro out _; exact List.Forall₂.nil
  | cons hd tl ih =>
    intro out h
    obtain ⟨k, v⟩ := hd
    by_cases hf : passesPhenotypeFilter limit v.phenotypes = true
    · rcases hdep : variantDepth res v with e | d
      · rw [variantsGo_depth_error res limit igenes k v tl e hf hdep] at h
        exact absurd h (by simp)
      · rcases hvt : variantTypeOf { v with depth := some d } with e | var_type
        · rw [variantsGo_vt_error res limit igenes k v tl d e hf hdep hvt] at h
          exact absurd h (by simp)
        · rcases hmk : mkResistanceVariant { v with depth := some d } var_type
              (if v.seq_regions = none then [""] else igenes) d with e | variant
          · rw [variantsGo_mk_error res limit igenes k v tl d var_type e hf hdep hvt hmk] at h
            exact absurd h (by simp)
          · rw [variantsGo_process res limit igenes k v tl d var_type variant hf hdep hvt hmk] at h ⊢
            have hr : ∃ out2, (variantsGo res limit
                (if v.seq_regions = none then [""] else igenes) tl).2 = .ok out2 := by
              rcases hgo : (variantsGo res limit
                  (if v.seq_regions = none then [""] else igenes) tl).2 with e2 | w
              · exact absurd h (by simp [hgo, Except.map])
              · exact ⟨w, rfl⟩
            obtain ⟨out2, hout2⟩ := hr
            refine List.Forall₂.cons ⟨rfl, ?_⟩
              (ih (if v.seq_regions = none then [""] else igenes) out2 hout2)
            rw [if_pos hf]
            refine ⟨d, hdep, rfl, fun hnone => ?_⟩
            unfold variantDepth at hdep
            rw [hnone] at hdep
            simpa using hdep.symm
    · simp only [Bool.not_eq_true] at hf
      rw [variantsGo_skip res limit igenes k v tl hf] at h ⊢
      refine List.Forall₂.cons ⟨rfl, ?_⟩ (ih igenes out h)
      rw [if_neg (by simp [hf])]

/-- Claim C2: every seq-variation entry that passes the phenotype allow-list
filter and has all three type flags false makes variant extraction raise an
unrecoverable error — the entry is never silently dropped. -/
theorem c2_variants_error_on_unflagged_entry
    (resfinder_result : ResfinderResult) (limit_to_phenotypes : Option (List String))
    (key : String) (info : SeqVariation)
    (hmem : (key, info) ∈ resfinder_result.seq_variations)
    (hfilter : passesPhenotypeFilter limit_to_phenotypes info.phenotypes = true)
    (hsub : info.substitution = false) (hins : info.insertion = false)
    (hdel : info.deletion = false) :
    ∃ e, (_parse_resfinder_amr_variants resfinder_result limit_to_phenotypes).2 = .error e :=
  variantsGo_error_of_no_flags resfinder_result limit_to_phenotypes key info
    hfilter hsub hins hdel [] resfinder_result.seq_variations hmem

/-- Claim C2 witness: a concrete result whose single entry has no flag set. -/
theorem c2_witness :
    ∃ e, (_parse_resfinder_amr_variants c2res none).2 = .error e :=
  c2_variants_error_on_unflagged_entry c2res none "var1" c2info (by decide) rfl rfl rfl rfl

/-- Claim C10 as amended: `_parse_resfinder_amr_variants` leaves the `phenotypes`
and `seq_regions` sections of its input untouched and modifies seq-variation
entries only in their `depth` key; when the extraction runs to completion, every
entry passing the allow-list filter has its `depth` key written with the
gene-depth lookup value (0 whenever the input has no `seq_regions` section),
while entries failing the filter stay unchanged.  (The original claim that a
non-empty `seq_variations` section always leaves the mapping changed is refuted
by the counterexample: when no entry passes the filter nothing is written.) -/
theorem c10_variants_inplace_depth_amended (resfinder_result : ResfinderResult)
    (limit_to_phenotypes : Option (List String)) :
    (_parse_resfinder_amr_variants resfinder_result limit_to_phenotypes).1.phenotypes =
        resfinder_result.phenotypes ∧
    (_parse_resfinder_amr_variants resfinder_result limit_to_phenotypes).1.seq_regions =
        resfinder_result.seq_regions ∧
    List.Forall₂ frameRel resfinder_result.seq_variations
      (_parse_resfinder_amr_variants resfinder_result limit_to_phenotypes).1.seq_variations ∧
    (∀ out, (_parse_resfinder_amr_variants resfinder_result limit_to_phenotypes).2 = .ok out →
      List.Forall₂ (successRel resfinder_result limit_to_phenotypes)
        resfinder_result.seq_variations
        (_parse_resfinder_amr_variants resfinder_result limit_to_phenotypes).1.seq_variations) :=
  ⟨rfl, rfl,
   variantsGo_frame resfinder_result limit_to_phenotypes [] resfinder_result.seq_variations,
   fun out h =>
     variantsGo_success resfinder_result limit_to_phenotypes [] resfinder_result.seq_variations
       out h⟩

/-- Claim C10 counterexample: a result with a non-empty `seq_variations` section
whose only entry fails the allow-list filter is returned entirely unchanged (and
without error), so the caller's mapping *is* left unchanged. -/
theorem c10_counterexample :
    c10skipRes.seq_variations ≠ [] ∧
    _parse_resfinder_amr_variants c10skipRes (some ["spectinomycin"]) = (c10skipRes, .ok []) := by
  constructor
  · decide
  · rfl

/-- Claim C10 witness: on a concrete processable entry the completed extraction
relates input and output entries by the depth-write relation. -/
theorem c10_witness :
    List.Forall₂ (successRel c10wRes none) c10wRes.seq_variations
      ((_parse_resfinder_amr_variants c10wRes none).1).seq_variations :=
  (c10_variants_inplace_depth_amended c10wRes none).2.2.2 _ rfl

end Prp
